import Mathlib

/-!
Verification development for the sales-analytics backend
(`backend/server.js`): a shallow embedding of the five HTTP GET
endpoints (`/api/total-revenue`, `/api/total-orders`, `/api/sales-trend`,
`/api/top-products`, `/api/sales-activity`) over an explicit relational
state, together with theorems about the endpoint behaviour.

Modelling conventions:
* SQL `date` values are embedded as `Int` day numbers (days since
  1970-01-01, computed by the standard civil-calendar algorithm); the
  `to_char(..., 'YYYY-MM-DD')` output formatting is left as the day
  number itself (the formatting is a bijection on day numbers).
* Epoch-second columns (`ready_at_time`) are `Int` seconds;
  `EXTRACT(EPOCH FROM '<d> hh:mm:ss'::timestamp)` is `day * 86400 +
  secondOfDay`, matching PostgreSQL's UTC reading of a naked timestamp.
* Money amounts are embedded as `Int` (the JS arithmetic on the summed
  values is exact addition of the two channel components).
* Query parameters are `Option String`; `none` is an absent parameter
  and `some ""` is a parameter supplied with an empty value, so that the
  JS truthiness tests (`startDate && endDate`, `source || 'All'`) can be
  embedded faithfully.
* The `timezone('Australia/Sydney', ...)` conversion is threaded through
  as an explicit function `tzShift : Int → Int` from a UTC epoch second
  to the corresponding local-clock second count, since no claim depends
  on the concrete offset rules.
* Fallible SQL execution (a query whose date parameter fails to cast)
  is `Except Unit`; the Express handler's try/catch turns it into the
  500 response (`ApiError.internal`).
-/

deriving instance DecidableEq for Except

/-- Error outcomes of a request: `badRequest` is the HTTP 400 sent by the
date validation, `internal` is the HTTP 500 sent by the catch block. -/
inductive ApiError where
  | badRequest
  | internal
deriving DecidableEq

/-- JS truthiness of a query parameter: absent (`undefined`) and the
empty string are falsy, every other string is truthy. -/
def truthy : Option String → Bool
  | none => false
  | some s => !(s == "")

/-- Embeds the JS default pattern `value || 'fallback'`. -/
def orDefault (v : Option String) (d : String) : String :=
  match v with
  | none => d
  | some s => if s == "" then d else s

/-- Numeric value of a decimal digit character. -/
def digitVal (c : Char) : Int :=
  (c.toNat : Int) - 48

/-- Embeds the regex `^\d{4}-\d{2}-\d{2}$` used by every endpoint's date
validation. -/
def isDateFormat (s : String) : Bool :=
  match s.toList with
  | [y1, y2, y3, y4, h1, m1, m2, h2, d1, d2] =>
    y1.isDigit && y2.isDigit && y3.isDigit && y4.isDigit && h1 == '-' &&
    m1.isDigit && m2.isDigit && h2 == '-' && d1.isDigit && d2.isDigit
  | _ => false

/-- Gregorian leap-year test. -/
def isLeapYear (y : Int) : Bool :=
  (y % 4 == 0 && !(y % 100 == 0)) || y % 400 == 0

/-- Number of days in a month of the Gregorian calendar. -/
def daysInMonth (y m : Int) : Int :=
  if m == 2 then (if isLeapYear y then 29 else 28)
  else if m == 4 || m == 6 || m == 9 || m == 11 then 30
  else 31

/-- Day number (days since 1970-01-01) of a Gregorian calendar date,
via the standard civil-from-date algorithm. -/
def daysFromCivil (y m d : Int) : Int :=
  let yy := if m ≤ 2 then y - 1 else y
  let era := Int.fdiv yy 400
  let yoe := yy - era * 400
  let mp := (m + 9) % 12
  let doy := (153 * mp + 2) / 5 + d - 1
  let doe := yoe * 365 + yoe / 4 - yoe / 100 + doy
  era * 146097 + doe - 719468

/-- PostgreSQL's parse of a `YYYY-MM-DD` text value as a `date`: `none`
when the text is not a well-formed calendar date (which makes the query
raise), otherwise the day number. -/
def parseDate (s : String) : Option Int :=
  match s.toList with
  | [y1, y2, y3, y4, h1, m1, m2, h2, d1, d2] =>
    if y1.isDigit && y2.isDigit && y3.isDigit && y4.isDigit && h1 == '-' &&
       m1.isDigit && m2.isDigit && h2 == '-' && d1.isDigit && d2.isDigit then
      let y := 1000 * digitVal y1 + 100 * digitVal y2 + 10 * digitVal y3 + digitVal y4
      let m := 10 * digitVal m1 + digitVal m2
      let d := 10 * digitVal d1 + digitVal d2
      if 1 ≤ m ∧ m ≤ 12 ∧ 1 ≤ d ∧ d ≤ daysInMonth y m then
        some (daysFromCivil y m d)
      else none
    else none
  | _ => none

/-- Embeds JS `parseInt(s, 10)`: skip leading whitespace, optional sign,
then the longest digit prefix; `none` stands for `NaN`. -/
def parseIntJS (s : String) : Option Int :=
  let cs := s.toList.dropWhile (fun c => c == ' ' || c == '\t' || c == '\n' || c == '\r')
  let signAndRest : Int × List Char :=
    match cs with
    | '-' :: r => (-1, r)
    | '+' :: r => (1, r)
    | r => (1, r)
  let digits := signAndRest.2.takeWhile Char.isDigit
  if digits.isEmpty then none
  else some (signAndRest.1 * digits.foldl (fun acc c => acc * 10 + digitVal c) 0)

/-- Epoch second of `day` (a day number) at `secondOfDay` seconds past
midnight, i.e. `EXTRACT(EPOCH FROM '<date> hh:mm:ss'::timestamp)`. -/
def epochOf (day secondOfDay : Int) : Int :=
  day * 86400 + secondOfDay

/-- Embeds JS `array.slice(0, n)` where `n` came through `parseInt`:
`none` (`NaN`) converts to index 0, a negative index counts from the
end, a large index is clamped to the length. -/
def jsSlice {α : Type} (l : List α) (n : Option Int) : List α :=
  match n with
  | none => []
  | some i => if i < 0 then l.take (l.length - i.natAbs) else l.take i.toNat

/-- Sum of `f` over a list (the SQL `SUM`, with the empty sum 0 playing
the role of `COALESCE(SUM(...), 0)`). -/
def sumBy {α : Type} (l : List α) (f : α → Int) : Int :=
  l.foldr (fun x acc => f x + acc) 0

/-- First-occurrence deduplication, the key order a `GROUP BY` scan
produces. -/
def dedupFirst {α : Type} [BEq α] (l : List α) : List α :=
  l.foldl (fun acc x => if acc.contains x then acc else acc ++ [x]) []

/-- Embeds an optional SQL equality condition: `none` means the clause
was not added (or the `$n IS NULL` disjunct holds), so every row
passes. -/
def matchesOpt (idOpt : Option String) (v : String) : Bool :=
  match idOpt with
  | none => true
  | some i => v == i

/-- Row of the `transactions` table (in-store channel). -/
structure Transaction where
  id : Int
  store_id : String
  transaction_date : Int
  transaction_time : Int
  day_of_week : Int
  total_amount : Int
deriving DecidableEq

/-- Row of the `bite_orders` table (online channel). -/
structure BiteOrder where
  order_id : Int
  site_id : String
  ready_at_time : Int
  total_price : Int
deriving DecidableEq

/-- Row of the `transaction_items` table. -/
structure TransactionItem where
  transaction_id : Int
  product_id : Int
  quantity : Int
  unit_price : Int
deriving DecidableEq

/-- Row of the `bite_order_items` table. `name IS NOT NULL` is absorbed
by modelling the column as a plain `String`. -/
structure BiteOrderItem where
  order_id : Int
  name : String
  quantity : Int
  line_price : Int
deriving DecidableEq

/-- Catalog entry loaded from `all_products.json`. -/
structure ProductDetails where
  name : String
  salePrice : Int
  costPrice : Int
deriving DecidableEq

/-- The relational state the endpoints read. -/
structure DB where
  transactions : List Transaction
  bite_orders : List BiteOrder
  transaction_items : List TransactionItem
  bite_order_items : List BiteOrderItem
deriving DecidableEq

/-- Query parameters of a request, as Express delivers them. -/
structure Req where
  store : Option String
  startDate : Option String
  endDate : Option String
  source : Option String
  limit : Option String
deriving DecidableEq

/-- Store-selection map for the in-store schema
(`store === 'Wagga' ? 'wagga' : store === 'Preston' ? 'preston' : null`). -/
def inStoreIdOf (store : Option String) : Option String :=
  if store == some "Wagga" then some "wagga"
  else if store == some "Preston" then some "preston"
  else none

/-- Store-selection map for the online schema
(`store === 'Wagga' ? '641' : store === 'Preston' ? '1837' : null`). -/
def onlineSiteIdOf (store : Option String) : Option String :=
  if store == some "Wagga" then some "641"
  else if store == some "Preston" then some "1837"
  else none

/-- The shared date-validation expression
`startDate && endDate && re.test(startDate) && re.test(endDate)`. -/
def areDatesValid (req : Req) : Bool :=
  truthy req.startDate && truthy req.endDate &&
  isDateFormat (req.startDate.getD "") && isDateFormat (req.endDate.getD "")

/-- Date parameters handed to the scalar queries: present only when the
validation succeeded, mirroring `if (areDatesValid) { conditions.push(...) }`. -/
def dateFilterOf (req : Req) : Option (String × String) :=
  if areDatesValid req then some (req.startDate.getD "", req.endDate.getD "") else none

/-- Date-filtered in-store row selection: the `WHERE transaction_date >=
$s AND transaction_date <= $e [AND store_id = $id]` query; errors when a
pushed date parameter fails to cast to `date`. -/
def inStoreDateQuery (sRaw eRaw : String) (store : Option String)
    (rows : List Transaction) : Except Unit (List Transaction) :=
  match parseDate sRaw, parseDate eRaw with
  | some s, some e =>
    .ok (rows.filter (fun t =>
      decide (s ≤ t.transaction_date) && decide (t.transaction_date ≤ e) &&
      matchesOpt (inStoreIdOf store) t.store_id))
  | _, _ => .error ()

/-- Row selection of the in-store scalar queries
(`SELECT ... FROM transactions [WHERE date conditions] [AND store_id =
$id]`): without a date pair only the optional store condition is
pushed. -/
def inStoreSelRows (dateFilter : Option (String × String)) (store : Option String)
    (rows : List Transaction) : Except Unit (List Transaction) :=
  match dateFilter with
  | none => .ok (rows.filter (fun t => matchesOpt (inStoreIdOf store) t.store_id))
  | some (sRaw, eRaw) => inStoreDateQuery sRaw eRaw store rows

/-- Date-filtered online row selection: `WHERE ready_at_time BETWEEN
EXTRACT(EPOCH FROM $s::timestamp) AND EXTRACT(EPOCH FROM $e::timestamp)
[AND site_id = $id]`, with `$s = 'start 00:00:00'` and
`$e = 'end 23:59:59'`. -/
def onlineDateQuery (sRaw eRaw : String) (store : Option String)
    (rows : List BiteOrder) : Except Unit (List BiteOrder) :=
  match parseDate sRaw, parseDate eRaw with
  | some s, some e =>
    .ok (rows.filter (fun o =>
      decide (epochOf s 0 ≤ o.ready_at_time) && decide (o.ready_at_time ≤ epochOf e 86399) &&
      matchesOpt (onlineSiteIdOf store) o.site_id))
  | _, _ => .error ()

/-- Row selection of the online scalar queries
(`SELECT ... FROM bite_orders [WHERE epoch conditions] [AND site_id =
$id]`). -/
def onlineSelRows (dateFilter : Option (String × String)) (store : Option String)
    (rows : List BiteOrder) : Except Unit (List BiteOrder) :=
  match dateFilter with
  | none => .ok (rows.filter (fun o => matchesOpt (onlineSiteIdOf store) o.site_id))
  | some (sRaw, eRaw) => onlineDateQuery sRaw eRaw store rows

/-- Body of the `/api/total-revenue` response. -/
structure RevenueResp where
  totalRevenue : Int
  inStoreRevenue : Int
  onlineRevenue : Int
deriving DecidableEq

/-- Result of a `/api/total-revenue` request, together with which
channel queries were actually sent to the database. -/
structure RevenueOutcome where
  resp : Except ApiError RevenueResp
  ranInStore : Bool
  ranOnline : Bool
deriving DecidableEq

/-- Core of the `/api/total-revenue` handler after validation: the
in-store query runs only if `source` is `'All'` or `'In Store'`, the
online query only if `source` is `'All'` or `'Bite'`; a throwing query
aborts the request (the online query is then never reached), and the
total is computed as the sum of the two components. -/
def totalRevenueCore (source : String) (store : Option String)
    (df : Option (String × String)) (db : DB) : RevenueOutcome :=
  match (if source == "All" || source == "In Store"
         then Except.map (fun l => sumBy l Transaction.total_amount)
                (inStoreSelRows df store db.transactions)
         else .ok 0) with
  | .error _ => ⟨.error .internal, source == "All" || source == "In Store", false⟩
  | .ok isRev =>
    match (if source == "All" || source == "Bite"
           then Except.map (fun l => sumBy l BiteOrder.total_price)
                  (onlineSelRows df store db.bite_orders)
           else .ok 0) with
    | .error _ => ⟨.error .internal, source == "All" || source == "In Store",
                   source == "All" || source == "Bite"⟩
    | .ok olRev => ⟨.ok ⟨isRev + olRev, isRev, olRev⟩,
                    source == "All" || source == "In Store",
                    source == "All" || source == "Bite"⟩

/-- The `/api/total-revenue` handler: a 400 when a date parameter is
supplied but the pair is not two well-formatted dates, otherwise the
conditional two-channel aggregation. -/
def totalRevenueHandler (req : Req) (db : DB) : RevenueOutcome :=
  if (truthy req.startDate || truthy req.endDate) && !(areDatesValid req) then
    ⟨.error .badRequest, false, false⟩
  else
    totalRevenueCore (orDefault req.source "All") req.store (dateFilterOf req) db

/-- Body of the `/api/total-orders` response. -/
structure OrdersResp where
  totalOrders : Nat
  inStoreOrders : Nat
  onlineOrders : Nat
deriving DecidableEq

/-- Result of a `/api/total-orders` request, with the executed-channel
record. -/
structure OrdersOutcome where
  resp : Except ApiError OrdersResp
  ranInStore : Bool
  ranOnline : Bool
deriving DecidableEq

/-- Core of the `/api/total-orders` handler: identical row selection to
the revenue endpoint, with `COUNT(*)` in place of `SUM`. -/
def totalOrdersCore (source : String) (store : Option String)
    (df : Option (String × String)) (db : DB) : OrdersOutcome :=
  match (if source == "All" || source == "In Store"
         then Except.map List.length (inStoreSelRows df store db.transactions)
         else .ok 0) with
  | .error _ => ⟨.error .internal, source == "All" || source == "In Store", false⟩
  | .ok isCnt =>
    match (if source == "All" || source == "Bite"
           then Except.map List.length (onlineSelRows df store db.bite_orders)
           else .ok 0) with
    | .error _ => ⟨.error .internal, source == "All" || source == "In Store",
                   source == "All" || source == "Bite"⟩
    | .ok olCnt => ⟨.ok ⟨isCnt + olCnt, isCnt, olCnt⟩,
                    source == "All" || source == "In Store",
                    source == "All" || source == "Bite"⟩

/-- The `/api/total-orders` handler. -/
def totalOrdersHandler (req : Req) (db : DB) : OrdersOutcome :=
  if (truthy req.startDate || truthy req.endDate) && !(areDatesValid req) then
    ⟨.error .badRequest, false, false⟩
  else
    totalOrdersCore (orDefault req.source "All") req.store (dateFilterOf req) db

/-- The in-store branch of the sales-trend `daily_sales` CTE binds the
literal `'In Store'` as `$4` and tests `($3 = 'All' OR $4 = 'In Store')`,
so the second disjunct compares the literal with itself; the embedding
keeps that comparison verbatim. -/
def trendInstoreSourceCond (source : String) : Bool :=
  source == "All" || ("In Store" : String) == "In Store"

/-- The online branch of the sales-trend query binds the literal
`'Bite'` as `$9` and tests `($8 = 'All' OR $9 = 'Bite')`. -/
def trendOnlineSourceCond (source : String) : Bool :=
  source == "All" || ("Bite" : String) == "Bite"

/-- Value bound to the in-store store-filter parameter of the grouped
queries (`filterInStoreByStoreId ? inStoreId : null`). -/
def instoreStoreParam (source : String) (store : Option String) : Option String :=
  if (source == "All" || source == "In Store") && !(store == some "All") &&
     (inStoreIdOf store).isSome
  then inStoreIdOf store else none

/-- Value bound to the online site-filter parameter of the grouped
queries (`filterOnlineBySiteId ? onlineSiteId : null`). -/
def onlineSiteParam (source : String) (store : Option String) : Option String :=
  if (source == "All" || source == "Bite") && !(store == some "All") &&
     (onlineSiteIdOf store).isSome
  then onlineSiteIdOf store else none

/-- WHERE clause of the in-store branch of the sales-trend query. -/
def trendInstoreCond (source : String) (store : Option String) (s e : Int)
    (t : Transaction) : Bool :=
  trendInstoreSourceCond source &&
  matchesOpt (instoreStoreParam source store) t.store_id &&
  decide (s ≤ t.transaction_date) && decide (t.transaction_date ≤ e)

/-- WHERE clause of the online branch of the sales-trend query. -/
def trendOnlineCond (source : String) (store : Option String) (s e : Int)
    (o : BiteOrder) : Bool :=
  trendOnlineSourceCond source &&
  matchesOpt (onlineSiteParam source store) o.site_id &&
  decide (epochOf s 0 ≤ o.ready_at_time) && decide (o.ready_at_time ≤ epochOf e 86399)

/-- Local calendar day of an online order:
`(timezone('Australia/Sydney', TO_TIMESTAMP(ready_at_time)))::date`. -/
def onlineLocalDate (tzShift : Int → Int) (ready : Int) : Int :=
  Int.fdiv (tzShift ready) 86400

/-- In-store contribution to one day of the trend line: the
`daily_sales` group of that date, summed (an absent group contributes 0
through the LEFT JOIN / COALESCE). -/
def instoreDaily (source : String) (store : Option String) (s e day : Int)
    (rows : List Transaction) : Int :=
  sumBy (rows.filter (fun t =>
    trendInstoreCond source store s e t && decide (t.transaction_date = day)))
    Transaction.total_amount

/-- Online contribution to one day of the trend line. -/
def onlineDaily (tzShift : Int → Int) (source : String) (store : Option String)
    (s e day : Int) (rows : List BiteOrder) : Int :=
  sumBy (rows.filter (fun o =>
    trendOnlineCond source store s e o &&
    decide (onlineLocalDate tzShift o.ready_at_time = day)))
    BiteOrder.total_price

/-- Core of the `/api/sales-trend` query: the `generate_series` day list
from `$1::date` to `$2::date`, one output row per series day, each
left-joined against the unioned per-day channel sums. -/
def salesTrendCore (tzShift : Int → Int) (source : String) (store : Option String)
    (sRaw eRaw : String) (db : DB) : Except Unit (List (Int × Int)) :=
  match parseDate sRaw, parseDate eRaw with
  | some s, some e =>
    .ok ((List.range (e + 1 - s).toNat).map (fun i : Nat =>
      (s + (i : Int),
       instoreDaily source store s e (s + (i : Int)) db.transactions +
       onlineDaily tzShift source store s e (s + (i : Int)) db.bite_orders)))
  | _, _ => .error ()

/-- The `/api/sales-trend` handler: both dates are required
unconditionally. -/
def salesTrendHandler (tzShift : Int → Int) (req : Req) (db : DB) :
    Except ApiError (List (Int × Int)) :=
  if !(areDatesValid req) then .error .badRequest
  else
    match salesTrendCore tzShift (orDefault req.source "All") req.store
            (req.startDate.getD "") (req.endDate.getD "") db with
    | .ok rows => .ok rows
    | .error _ => .error .internal

/-- Row of the combined `/api/top-products` UNION ALL before the
Node-side sort/limit/enrichment. -/
structure RawProduct where
  product_identifier : String
  source_type : String
  total_quantity : Int
  total_revenue : Int
deriving DecidableEq

/-- WHERE clause of the `instore_products` CTE applied to the joined
transaction (`($1 = 'All' OR $1 = 'In Store')`, optional store filter,
inclusive date range). -/
def tpInstoreCond (source : String) (store : Option String) (s e : Int)
    (t : Transaction) : Bool :=
  (source == "All" || source == "In Store") &&
  matchesOpt (instoreStoreParam source store) t.store_id &&
  decide (s ≤ t.transaction_date) && decide (t.transaction_date ≤ e)

/-- WHERE clause of the `online_products` CTE applied to the joined
order (`($1 = 'All' OR $1 = 'Bite')`, optional site filter, inclusive
epoch range). -/
def tpOnlineCond (source : String) (store : Option String) (s e : Int)
    (o : BiteOrder) : Bool :=
  (source == "All" || source == "Bite") &&
  matchesOpt (onlineSiteParam source store) o.site_id &&
  decide (epochOf s 0 ≤ o.ready_at_time) && decide (o.ready_at_time ≤ epochOf e 86399)

/-- Join `transaction_items ti JOIN transactions t ON ti.transaction_id
= t.id` filtered by the `instore_products` WHERE clause, including
`ti.quantity > 0`. -/
def instorePairs (source : String) (store : Option String) (s e : Int)
    (items : List TransactionItem) (trans : List Transaction) :
    List (TransactionItem × Transaction) :=
  (items.flatMap (fun ti =>
    (trans.filter (fun t =>
      decide (ti.transaction_id = t.id) && tpInstoreCond source store s e t)).map
      (fun t => (ti, t)))).filter
    (fun p => decide (p.1.quantity > 0))

/-- Join `bite_order_items boi JOIN bite_orders bo ON boi.order_id =
bo.order_id` filtered by the `online_products` WHERE clause, including
`boi.quantity > 0` and the non-empty-name condition. -/
def onlinePairs (source : String) (store : Option String) (s e : Int)
    (oitems : List BiteOrderItem) (orders : List BiteOrder) :
    List (BiteOrderItem × BiteOrder) :=
  (oitems.flatMap (fun bi =>
    (orders.filter (fun o =>
      decide (bi.order_id = o.order_id) && tpOnlineCond source store s e o)).map
      (fun o => (bi, o)))).filter
    (fun p => decide (p.1.quantity > 0) && !(p.1.name == ""))

/-- The `instore_products` CTE: `GROUP BY ti.product_id` with
`SUM(ti.quantity)` and `SUM(ti.unit_price * ti.quantity)`, identifier
cast to text. -/
def instoreAgg (source : String) (store : Option String) (s e : Int)
    (items : List TransactionItem) (trans : List Transaction) : List RawProduct :=
  let pairs := instorePairs source store s e items trans
  (dedupFirst (pairs.map (fun p => p.1.product_id))).map (fun pid =>
    let grp := pairs.filter (fun p => decide (p.1.product_id = pid))
    ⟨toString pid, "In-Store",
     sumBy grp (fun p => p.1.quantity),
     sumBy grp (fun p => p.1.unit_price * p.1.quantity)⟩)

/-- The `online_products` CTE: `GROUP BY boi.name` with
`SUM(boi.quantity)` and `SUM(boi.line_price)`. -/
def onlineAgg (source : String) (store : Option String) (s e : Int)
    (oitems : List BiteOrderItem) (orders : List BiteOrder) : List RawProduct :=
  let pairs := onlinePairs source store s e oitems orders
  (dedupFirst (pairs.map (fun p => p.1.name))).map (fun nm =>
    let grp := pairs.filter (fun p => p.1.name == nm)
    ⟨nm, "Online",
     sumBy grp (fun p => p.1.quantity),
     sumBy grp (fun p => p.1.line_price)⟩)

/-- The top-products UNION ALL: in-store aggregates followed by online
aggregates. -/
def combinedAggs (source : String) (store : Option String) (s e : Int) (db : DB) :
    List RawProduct :=
  instoreAgg source store s e db.transaction_items db.transactions ++
  onlineAgg source store s e db.bite_order_items db.bite_orders

/-- Stable insertion step for the descending-by-revenue sort
(`rawProducts.sort((a, b) => (b.total_revenue || 0) - (a.total_revenue || 0))`). -/
def insertByRevDesc (x : RawProduct) : List RawProduct → List RawProduct
  | [] => [x]
  | y :: ys =>
    if y.total_revenue > x.total_revenue then y :: insertByRevDesc x ys
    else x :: y :: ys

/-- Stable sort of the combined product rows by revenue, descending. -/
def sortByRevDesc : List RawProduct → List RawProduct
  | [] => []
  | x :: xs => insertByRevDesc x (sortByRevDesc xs)

/-- Lookup in the in-memory `productDetailsMap`. -/
def lookupCatalog (cat : List (String × ProductDetails)) (k : String) :
    Option ProductDetails :=
  match cat.find? (fun entry => entry.1 == k) with
  | some entry => some entry.2
  | none => none

/-- Formatted `/api/top-products` response row; `none` fields are JSON
`null`. -/
structure ProductOut where
  name : Option String
  source : String
  revenue : Int
  salePrice : Option Int
  costPrice : Option Int
  quantity : Int
deriving DecidableEq

/-- The `finalProductList` enrichment step: in-store identifiers are
resolved through the catalog, falling back to the
`Unknown Product [<id>]` placeholder; online identifiers are used as the
name with no price fields. -/
def enrichProduct (cat : List (String × ProductDetails)) (p : RawProduct) :
    ProductOut :=
  if p.source_type == "In-Store" then
    match lookupCatalog cat p.product_identifier with
    | some d => ⟨some d.name, p.source_type, p.total_revenue,
                 some d.salePrice, some d.costPrice, p.total_quantity⟩
    | none => ⟨some ("Unknown Product [" ++ p.product_identifier ++ "]"),
               p.source_type, p.total_revenue, none, none, p.total_quantity⟩
  else if p.source_type == "Online" then
    ⟨some p.product_identifier, p.source_type, p.total_revenue, none, none,
     p.total_quantity⟩
  else
    ⟨none, p.source_type, p.total_revenue, none, none, p.total_quantity⟩

/-- The parsed limit: the destructuring default `limit = 40` applies
only when the parameter is absent; otherwise `parseInt(limit, 10)`,
where `none` stands for `NaN`. -/
def limitOf (req : Req) : Option Int :=
  match req.limit with
  | none => some 40
  | some s => parseIntJS s

/-- The `/api/top-products` handler: validate both dates, run the
UNION ALL query, then sort descending by revenue, `slice(0, limit)` and
enrich. -/
def topProductsHandler (req : Req) (db : DB)
    (cat : List (String × ProductDetails)) : Except ApiError (List ProductOut) :=
  if !(areDatesValid req) then .error .badRequest
  else
    match parseDate (req.startDate.getD ""), parseDate (req.endDate.getD "") with
    | some s, some e =>
      let raw := combinedAggs (orDefault req.source "All") req.store s e db
      .ok ((jsSlice (sortByRevDesc raw) (limitOf req)).map (enrichProduct cat))
    | _, _ => .error .internal

/-- The `/api/sales-activity` response row. -/
structure ActivityCell where
  day_of_week : Int
  hour_of_day : Int
  total_sales : Int
  order_count : Nat
deriving DecidableEq

/-- `EXTRACT(ISODOW FROM ...)` of a day number (1970-01-01 was a
Thursday, ISODOW Monday = 1). -/
def isodowOfDay (day : Int) : Int :=
  (day + 3) % 7 + 1

/-- The `combined_activity` CTE: per-row `(day_of_week, hour_of_day,
sales_amount)` triples from both channels; the in-store channel uses the
stored day and `EXTRACT(HOUR FROM transaction_time)`, the online channel
derives both from the Sydney-local timestamp. -/
def activityCells (tzShift : Int → Int) (source : String) (store : Option String)
    (s e : Int) (db : DB) : List (Int × Int × Int) :=
  (db.transactions.filter (tpInstoreCond source store s e)).map
    (fun t => (t.day_of_week, t.transaction_time / 3600, t.total_amount))
  ++ (db.bite_orders.filter (tpOnlineCond source store s e)).map
    (fun o => (isodowOfDay (Int.fdiv (tzShift o.ready_at_time) 86400),
               (tzShift o.ready_at_time) % 86400 / 3600,
               o.total_price))

/-- Stable insertion step for an ascending sort by an integer key. -/
def insertAscBy {α : Type} (f : α → Int) (x : α) : List α → List α
  | [] => [x]
  | y :: ys => if f y < f x then y :: insertAscBy f x ys else x :: y :: ys

/-- Stable ascending sort by an integer key (the `ORDER BY` of the
activity query). -/
def sortAscBy {α : Type} (f : α → Int) : List α → List α
  | [] => []
  | x :: xs => insertAscBy f x (sortAscBy f xs)

/-- Core of the `/api/sales-activity` query: group the combined cells by
`(day_of_week, hour_of_day)`, summing sales and counting rows, ordered
by day then hour. -/
def salesActivityCore (tzShift : Int → Int) (source : String)
    (store : Option String) (sRaw eRaw : String) (db : DB) :
    Except Unit (List ActivityCell) :=
  match parseDate sRaw, parseDate eRaw with
  | some s, some e =>
    let cells := activityCells tzShift source store s e db
    let keys := dedupFirst (cells.map (fun c => (c.1, c.2.1)))
    let grouped : List ActivityCell := keys.map (fun k =>
      let grp := cells.filter (fun c => decide (c.1 = k.1) && decide (c.2.1 = k.2))
      ⟨k.1, k.2, sumBy grp (fun c => c.2.2), grp.length⟩)
    .ok (sortAscBy (fun c => c.day_of_week * 100 + c.hour_of_day) grouped)
  | _, _ => .error ()

/-- The `/api/sales-activity` handler: both dates are required
unconditionally. -/
def salesActivityHandler (tzShift : Int → Int) (req : Req) (db : DB) :
    Except ApiError (List ActivityCell) :=
  if !(areDatesValid req) then .error .badRequest
  else
    match salesActivityCore tzShift (orDefault req.source "All") req.store
            (req.startDate.getD "") (req.endDate.getD "") db with
    | .ok rows => .ok rows
    | .error _ => .error .internal

example : parseDate "2025-03-01" = some 20148 := by decide
example : daysFromCivil 1970 1 1 = 0 := by decide
example : daysFromCivil 2000 3 1 = 11017 := by decide
example : parseIntJS "abc" = none := by decide
example : parseIntJS " -42x" = some (-42) := by decide
example : isDateFormat "2025-03-01" = true := by decide
example : isDateFormat "2025-3-01" = false := by decide


/-! ### General lemmas about the embedded operations -/

theorem sumBy_filter_false {α : Type} (l : List α) (p : α → Bool) (f : α → Int)
    (h : ∀ x ∈ l, p x = false) : sumBy (l.filter p) f = 0 := by
  have hnil : l.filter p = [] := List.filter_eq_nil_iff.mpr (by simpa using h)
  rw [hnil]
  rfl

theorem mem_insertByRevDesc {x a : RawProduct} {l : List RawProduct} :
    a ∈ insertByRevDesc x l ↔ a = x ∨ a ∈ l := by
  induction l with
  | nil => simp [insertByRevDesc]
  | cons y ys ih =>
    unfold insertByRevDesc
    split
    · simp only [List.mem_cons, ih]
      tauto
    · simp [List.mem_cons]

theorem length_insertByRevDesc (x : RawProduct) (l : List RawProduct) :
    (insertByRevDesc x l).length = l.length + 1 := by
  induction l with
  | nil => rfl
  | cons y ys ih =>
    unfold insertByRevDesc
    split
    · simp only [List.length_cons, ih]
    · simp only [List.length_cons]

theorem length_sortByRevDesc (l : List RawProduct) :
    (sortByRevDesc l).length = l.length := by
  induction l with
  | nil => rfl
  | cons x xs ih =>
    unfold sortByRevDesc
    rw [length_insertByRevDesc, ih, List.length_cons]

theorem pairwise_insertByRevDesc (x : RawProduct) (l : List RawProduct)
    (h : List.Pairwise (fun a b => b.total_revenue ≤ a.total_revenue) l) :
    List.Pairwise (fun a b => b.total_revenue ≤ a.total_revenue)
      (insertByRevDesc x l) := by
  induction l with
  | nil => simp [insertByRevDesc]
  | cons y ys ih =>
    rw [List.pairwise_cons] at h
    obtain ⟨hy, hys⟩ := h
    unfold insertByRevDesc
    split
    · rename_i hgt
      rw [List.pairwise_cons]
      refine ⟨?_, ih hys⟩
      intro b hb
      rcases mem_insertByRevDesc.mp hb with rfl | hb2
      · omega
      · exact hy b hb2
    · rename_i hle
      rw [List.pairwise_cons]
      refine ⟨?_, List.pairwise_cons.mpr ⟨hy, hys⟩⟩
      intro b hb
      rcases List.mem_cons.mp hb with rfl | hb2
      · omega
      · have := hy b hb2
        omega

theorem pairwise_sortByRevDesc (l : List RawProduct) :
    List.Pairwise (fun a b => b.total_revenue ≤ a.total_revenue)
      (sortByRevDesc l) := by
  induction l with
  | nil => simp [sortByRevDesc]
  | cons x xs ih =>
    unfold sortByRevDesc
    exact pairwise_insertByRevDesc x _ ih

theorem enrichProduct_revenue (cat : List (String × ProductDetails))
    (p : RawProduct) : (enrichProduct cat p).revenue = p.total_revenue := by
  unfold enrichProduct
  split
  · split <;> rfl
  · split <;> rfl

/-! ### Claim C1: the returned totals are the sums of the two channel
components. -/

/-- C1: for every `/api/total-revenue` and `/api/total-orders` request
that produces a 200 response, the reported total equals the sum of the
in-store and online components (`totalRevenue == inStoreRevenue +
onlineRevenue`, `totalOrders == inStoreOrders + onlineOrders`). -/
theorem c1_totals_are_channel_sums (req : Req) (db : DB) :
    (∀ r, (totalRevenueHandler req db).resp = .ok r →
      r.totalRevenue = r.inStoreRevenue + r.onlineRevenue) ∧
    (∀ r, (totalOrdersHandler req db).resp = .ok r →
      r.totalOrders = r.inStoreOrders + r.onlineOrders) := by
  constructor
  · intro r h
    unfold totalRevenueHandler at h
    split at h
    · simp at h
    · unfold totalRevenueCore at h
      split at h
      · simp at h
      · split at h
        · simp at h
        · simp only [Except.ok.injEq] at h
          subst h
          rfl
  · intro r h
    unfold totalOrdersHandler at h
    split at h
    · simp at h
    · unfold totalOrdersCore at h
      split at h
      · simp at h
      · split at h
        · simp at h
        · simp only [Except.ok.injEq] at h
          subst h
          rfl

/-- Witness for C1: a request with data in both channels. -/
theorem c1_totals_are_channel_sums_witness :
    (⟨12, 7, 5⟩ : RevenueResp).totalRevenue =
      (⟨12, 7, 5⟩ : RevenueResp).inStoreRevenue +
      (⟨12, 7, 5⟩ : RevenueResp).onlineRevenue ∧
    (⟨2, 1, 1⟩ : OrdersResp).totalOrders =
      (⟨2, 1, 1⟩ : OrdersResp).inStoreOrders +
      (⟨2, 1, 1⟩ : OrdersResp).onlineOrders :=
  ⟨(c1_totals_are_channel_sums ⟨none, none, none, none, none⟩
      ⟨[⟨1, "x", 20089, 0, 4, 7⟩], [⟨2, "641", 1735737600, 5⟩], [], []⟩).1
      ⟨12, 7, 5⟩ (by rfl),
   (c1_totals_are_channel_sums ⟨none, none, none, none, none⟩
      ⟨[⟨1, "x", 20089, 0, 4, 7⟩], [⟨2, "641", 1735737600, 5⟩], [], []⟩).2
      ⟨2, 1, 1⟩ (by rfl)⟩

/-! ### Claim C2: channel filters structurally suppress the other
channel's query. -/

theorem totalRevenueCore_skipOL_props (source : String) (store : Option String)
    (df : Option (String × String)) (db : DB)
    (hOL : (source == "All" || source == "Bite") = false) :
    (totalRevenueCore source store df db).ranOnline = false ∧
    ∀ r, (totalRevenueCore source store df db).resp = .ok r →
      r.onlineRevenue = 0 := by
  unfold totalRevenueCore
  rw [hOL]
  simp only [Bool.false_eq_true, if_false]
  split
  · exact ⟨rfl, fun r h => by simp at h⟩
  · exact ⟨rfl, fun r h => by
      simp only [Except.ok.injEq] at h
      subst h
      rfl⟩

theorem totalRevenueCore_skipOL_congr (source : String) (store : Option String)
    (df : Option (String × String)) (db db2 : DB)
    (hOL : (source == "All" || source == "Bite") = false)
    (hT : db.transactions = db2.transactions) :
    totalRevenueCore source store df db = totalRevenueCore source store df db2 := by
  unfold totalRevenueCore
  rw [hOL, hT]
  simp only [Bool.false_eq_true, if_false]

theorem totalRevenueCore_skipIS_props (source : String) (store : Option String)
    (df : Option (String × String)) (db : DB)
    (hIS : (source == "All" || source == "In Store") = false) :
    (totalRevenueCore source store df db).ranInStore = false ∧
    ∀ r, (totalRevenueCore source store df db).resp = .ok r →
      r.inStoreRevenue = 0 := by
  unfold totalRevenueCore
  rw [hIS]
  simp only [Bool.false_eq_true, if_false]
  split
  · exact ⟨rfl, fun r h => by simp at h⟩
  · exact ⟨rfl, fun r h => by
      simp only [Except.ok.injEq] at h
      subst h
      rfl⟩

theorem totalRevenueCore_skipIS_congr (source : String) (store : Option String)
    (df : Option (String × String)) (db db2 : DB)
    (hIS : (source == "All" || source == "In Store") = false)
    (hB : db.bite_orders = db2.bite_orders) :
    totalRevenueCore source store df db = totalRevenueCore source store df db2 := by
  unfold totalRevenueCore
  rw [hIS, hB]
  simp only [Bool.false_eq_true, if_false]

theorem totalOrdersCore_skipOL_props (source : String) (store : Option String)
    (df : Option (String × String)) (db : DB)
    (hOL : (source == "All" || source == "Bite") = false) :
    (totalOrdersCore source store df db).ranOnline = false ∧
    ∀ r, (totalOrdersCore source store df db).resp = .ok r →
      r.onlineOrders = 0 := by
  unfold totalOrdersCore
  rw [hOL]
  simp only [Bool.false_eq_true, if_false]
  split
  · exact ⟨rfl, fun r h => by simp at h⟩
  · exact ⟨rfl, fun r h => by
      simp only [Except.ok.injEq] at h
      subst h
      rfl⟩

theorem totalOrdersCore_skipOL_congr (source : String) (store : Option String)
    (df : Option (String × String)) (db db2 : DB)
    (hOL : (source == "All" || source == "Bite") = false)
    (hT : db.transactions = db2.transactions) :
    totalOrdersCore source store df db = totalOrdersCore source store df db2 := by
  unfold totalOrdersCore
  rw [hOL, hT]
  simp only [Bool.false_eq_true, if_false]

theorem totalOrdersCore_skipIS_props (source : String) (store : Option String)
    (df : Option (String × String)) (db : DB)
    (hIS : (source == "All" || source == "In Store") = false) :
    (totalOrdersCore source store df db).ranInStore = false ∧
    ∀ r, (totalOrdersCore source store df db).resp = .ok r →
      r.inStoreOrders = 0 := by
  unfold totalOrdersCore
  rw [hIS]
  simp only [Bool.false_eq_true, if_false]
  split
  · exact ⟨rfl, fun r h => by simp at h⟩
  · exact ⟨rfl, fun r h => by
      simp only [Except.ok.injEq] at h
      subst h
      rfl⟩

theorem totalOrdersCore_skipIS_congr (source : String) (store : Option String)
    (df : Option (String × String)) (db db2 : DB)
    (hIS : (source == "All" || source == "In Store") = false)
    (hB : db.bite_orders = db2.bite_orders) :
    totalOrdersCore source store df db = totalOrdersCore source store df db2 := by
  unfold totalOrdersCore
  rw [hIS, hB]
  simp only [Bool.false_eq_true, if_false]

theorem totalRevenueCore_ran_of_ok (source : String) (store : Option String)
    (df : Option (String × String)) (db : DB) (r : RevenueResp)
    (h : (totalRevenueCore source store df db).resp = .ok r) :
    (totalRevenueCore source store df db).ranInStore =
      (source == "All" || source == "In Store") ∧
    (totalRevenueCore source store df db).ranOnline =
      (source == "All" || source == "Bite") := by
  unfold totalRevenueCore at h ⊢
  split at h
  · simp at h
  · split at h
    · simp at h
    · exact ⟨rfl, rfl⟩

theorem totalOrdersCore_ran_of_ok (source : String) (store : Option String)
    (df : Option (String × String)) (db : DB) (r : OrdersResp)
    (h : (totalOrdersCore source store df db).resp = .ok r) :
    (totalOrdersCore source store df db).ranInStore =
      (source == "All" || source == "In Store") ∧
    (totalOrdersCore source store df db).ranOnline =
      (source == "All" || source == "Bite") := by
  unfold totalOrdersCore at h ⊢
  split at h
  · simp at h
  · split at h
    · simp at h
    · exact ⟨rfl, rfl⟩

/-- C2: `source=In Store` never runs the online aggregation — the
response reports `onlineRevenue`/`onlineOrders` 0 and is independent of
the `bite_orders` table; symmetrically `source=Bite` never runs the
in-store aggregation and the in-store components are exactly 0; with
`source=All` or `source` omitted, any 200 response comes from running
both channel queries. -/
theorem c2_channel_suppression (req : Req) (db db2 : DB) :
    (req.source = some "In Store" →
      (totalRevenueHandler req db).ranOnline = false ∧
      (∀ r, (totalRevenueHandler req db).resp = .ok r → r.onlineRevenue = 0) ∧
      (totalOrdersHandler req db).ranOnline = false ∧
      (∀ r, (totalOrdersHandler req db).resp = .ok r → r.onlineOrders = 0) ∧
      (db.transactions = db2.transactions →
        totalRevenueHandler req db = totalRevenueHandler req db2 ∧
        totalOrdersHandler req db = totalOrdersHandler req db2)) ∧
    (req.source = some "Bite" →
      (totalRevenueHandler req db).ranInStore = false ∧
      (∀ r, (totalRevenueHandler req db).resp = .ok r → r.inStoreRevenue = 0) ∧
      (totalOrdersHandler req db).ranInStore = false ∧
      (∀ r, (totalOrdersHandler req db).resp = .ok r → r.inStoreOrders = 0) ∧
      (db.bite_orders = db2.bite_orders →
        totalRevenueHandler req db = totalRevenueHandler req db2 ∧
        totalOrdersHandler req db = totalOrdersHandler req db2)) ∧
    ((req.source = some "All" ∨ req.source = none) →
      (∀ r, (totalRevenueHandler req db).resp = .ok r →
        (totalRevenueHandler req db).ranInStore = true ∧
        (totalRevenueHandler req db).ranOnline = true) ∧
      (∀ r, (totalOrdersHandler req db).resp = .ok r →
        (totalOrdersHandler req db).ranInStore = true ∧
        (totalOrdersHandler req db).ranOnline = true)) := by
  refine ⟨?_, ?_, ?_⟩
  · intro hsrc
    have hdef : orDefault req.source "All" = "In Store" := by rw [hsrc]; rfl
    have hOL : (orDefault req.source "All" == "All" ||
        orDefault req.source "All" == "Bite") = false := by rw [hdef]; rfl
    unfold totalRevenueHandler totalOrdersHandler
    split
    · exact ⟨rfl, fun r h => by simp at h, rfl, fun r h => by simp at h,
        fun _ => ⟨rfl, rfl⟩⟩
    · exact ⟨(totalRevenueCore_skipOL_props _ _ _ _ hOL).1,
        (totalRevenueCore_skipOL_props _ _ _ _ hOL).2,
        (totalOrdersCore_skipOL_props _ _ _ _ hOL).1,
        (totalOrdersCore_skipOL_props _ _ _ _ hOL).2,
        fun hT => ⟨totalRevenueCore_skipOL_congr _ _ _ _ _ hOL hT,
          totalOrdersCore_skipOL_congr _ _ _ _ _ hOL hT⟩⟩
  · intro hsrc
    have hdef : orDefault req.source "All" = "Bite" := by rw [hsrc]; rfl
    have hIS : (orDefault req.source "All" == "All" ||
        orDefault req.source "All" == "In Store") = false := by rw [hdef]; rfl
    unfold totalRevenueHandler totalOrdersHandler
    split
    · exact ⟨rfl, fun r h => by simp at h, rfl, fun r h => by simp at h,
        fun _ => ⟨rfl, rfl⟩⟩
    · exact ⟨(totalRevenueCore_skipIS_props _ _ _ _ hIS).1,
        (totalRevenueCore_skipIS_props _ _ _ _ hIS).2,
        (totalOrdersCore_skipIS_props _ _ _ _ hIS).1,
        (totalOrdersCore_skipIS_props _ _ _ _ hIS).2,
        fun hB => ⟨totalRevenueCore_skipIS_congr _ _ _ _ _ hIS hB,
          totalOrdersCore_skipIS_congr _ _ _ _ _ hIS hB⟩⟩
  · intro hsrc
    have hdef : orDefault req.source "All" = "All" := by
      rcases hsrc with h | h <;> rw [h] <;> rfl
    have hIS : (orDefault req.source "All" == "All" ||
        orDefault req.source "All" == "In Store") = true := by rw [hdef]; rfl
    have hOL : (orDefault req.source "All" == "All" ||
        orDefault req.source "All" == "Bite") = true := by rw [hdef]; rfl
    unfold totalRevenueHandler totalOrdersHandler
    split
    · exact ⟨fun r h => by simp at h, fun r h => by simp at h⟩
    · constructor
      · intro r h
        have := totalRevenueCore_ran_of_ok _ _ _ _ _ h
        rw [hIS] at this
        rw [hOL] at this
        exact this
      · intro r h
        have := totalOrdersCore_ran_of_ok _ _ _ _ _ h
        rw [hIS] at this
        rw [hOL] at this
        exact this

/-- Witness for C2: concrete requests with each source filter, over two
databases that differ only in the suppressed channel's table. -/
theorem c2_channel_suppression_witness :
    (totalRevenueHandler ⟨none, none, none, some "In Store", none⟩
      ⟨[⟨1, "x", 20089, 0, 4, 7⟩], [⟨2, "641", 1000, 5⟩], [], []⟩).ranOnline = false ∧
    totalRevenueHandler ⟨none, none, none, some "In Store", none⟩
      ⟨[⟨1, "x", 20089, 0, 4, 7⟩], [⟨2, "641", 1000, 5⟩], [], []⟩ =
    totalRevenueHandler ⟨none, none, none, some "In Store", none⟩
      ⟨[⟨1, "x", 20089, 0, 4, 7⟩], [⟨3, "1837", 2000, 11⟩], [], []⟩ ∧
    (totalRevenueHandler ⟨none, none, none, some "Bite", none⟩
      ⟨[⟨1, "x", 20089, 0, 4, 7⟩], [⟨2, "641", 1000, 5⟩], [], []⟩).ranInStore = false ∧
    (totalRevenueHandler ⟨none, none, none, some "All", none⟩
      ⟨[⟨1, "x", 20089, 0, 4, 7⟩], [⟨2, "641", 1000, 5⟩], [], []⟩).ranInStore = true :=
  ⟨((c2_channel_suppression ⟨none, none, none, some "In Store", none⟩
      ⟨[⟨1, "x", 20089, 0, 4, 7⟩], [⟨2, "641", 1000, 5⟩], [], []⟩
      ⟨[⟨1, "x", 20089, 0, 4, 7⟩], [⟨3, "1837", 2000, 11⟩], [], []⟩).1 rfl).1,
   (((c2_channel_suppression ⟨none, none, none, some "In Store", none⟩
      ⟨[⟨1, "x", 20089, 0, 4, 7⟩], [⟨2, "641", 1000, 5⟩], [], []⟩
      ⟨[⟨1, "x", 20089, 0, 4, 7⟩], [⟨3, "1837", 2000, 11⟩], [], []⟩).1 rfl).2.2.2.2 rfl).1,
   ((c2_channel_suppression ⟨none, none, none, some "Bite", none⟩
      ⟨[⟨1, "x", 20089, 0, 4, 7⟩], [⟨2, "641", 1000, 5⟩], [], []⟩
      ⟨[⟨1, "x", 20089, 0, 4, 7⟩], [⟨2, "641", 1000, 5⟩], [], []⟩).2.1 rfl).1,
   (((c2_channel_suppression ⟨none, none, none, some "All", none⟩
      ⟨[⟨1, "x", 20089, 0, 4, 7⟩], [⟨2, "641", 1000, 5⟩], [], []⟩
      ⟨[⟨1, "x", 20089, 0, 4, 7⟩], [⟨2, "641", 1000, 5⟩], [], []⟩).2.2 (Or.inl rfl)).1
      ⟨12, 7, 5⟩ (by rfl)).1⟩

/-! ### Claim C3: the date predicates are plain inclusive ranges. -/

theorem inStoreSelRows_parsed (sRaw eRaw : String) (s e : Int)
    (store : Option String) (rows : List Transaction)
    (hs : parseDate sRaw = some s) (he : parseDate eRaw = some e) :
    inStoreSelRows (some (sRaw, eRaw)) store rows =
      .ok (rows.filter (fun t =>
        decide (s ≤ t.transaction_date) && decide (t.transaction_date ≤ e) &&
        matchesOpt (inStoreIdOf store) t.store_id)) := by
  show inStoreDateQuery sRaw eRaw store rows = _
  unfold inStoreDateQuery
  rw [hs, he]

theorem onlineSelRows_parsed (sRaw eRaw : String) (s e : Int)
    (store : Option String) (rows : List BiteOrder)
    (hs : parseDate sRaw = some s) (he : parseDate eRaw = some e) :
    onlineSelRows (some (sRaw, eRaw)) store rows =
      .ok (rows.filter (fun o =>
        decide (epochOf s 0 ≤ o.ready_at_time) &&
        decide (o.ready_at_time ≤ epochOf e 86399) &&
        matchesOpt (onlineSiteIdOf store) o.site_id)) := by
  show onlineDateQuery sRaw eRaw store rows = _
  unfold onlineDateQuery
  rw [hs, he]

/-- C3: with a valid date pair and no store filter, the in-store scalar
queries select a transaction exactly when `startDate <=
transaction_date <= endDate` (no day-shift on either bound), and the
online queries select an order exactly when its epoch timestamp lies in
the closed range from `startDate 00:00:00` to `endDate 23:59:59`. -/
theorem c3_date_range_inclusion (sRaw eRaw : String) (s e : Int)
    (store : Option String) (db : DB)
    (hs : parseDate sRaw = some s) (he : parseDate eRaw = some e)
    (hstore : inStoreIdOf store = none) (hsite : onlineSiteIdOf store = none) :
    (∀ t : Transaction,
      (∃ L, inStoreSelRows (some (sRaw, eRaw)) store db.transactions = .ok L ∧
        t ∈ L) ↔
      (t ∈ db.transactions ∧ s ≤ t.transaction_date ∧ t.transaction_date ≤ e)) ∧
    (∀ o : BiteOrder,
      (∃ L, onlineSelRows (some (sRaw, eRaw)) store db.bite_orders = .ok L ∧
        o ∈ L) ↔
      (o ∈ db.bite_orders ∧ epochOf s 0 ≤ o.ready_at_time ∧
        o.ready_at_time ≤ epochOf e 86399)) := by
  have h1 := inStoreSelRows_parsed sRaw eRaw s e store db.transactions hs he
  have h2 := onlineSelRows_parsed sRaw eRaw s e store db.bite_orders hs he
  constructor
  · intro t
    constructor
    · rintro ⟨L, hL, htL⟩
      rw [h1] at hL
      simp only [Except.ok.injEq] at hL
      subst hL
      simp only [List.mem_filter, hstore, matchesOpt, Bool.and_true,
        Bool.and_eq_true, decide_eq_true_eq] at htL
      exact ⟨htL.1, htL.2⟩
    · rintro ⟨hmem, hd1, hd2⟩
      refine ⟨_, h1, ?_⟩
      simp only [List.mem_filter, hstore, matchesOpt, Bool.and_true,
        Bool.and_eq_true, decide_eq_true_eq]
      exact ⟨hmem, hd1, hd2⟩
  · intro o
    constructor
    · rintro ⟨L, hL, hoL⟩
      rw [h2] at hL
      simp only [Except.ok.injEq] at hL
      subst hL
      simp only [List.mem_filter, hsite, matchesOpt, Bool.and_true,
        Bool.and_eq_true, decide_eq_true_eq] at hoL
      exact ⟨hoL.1, hoL.2⟩
    · rintro ⟨hmem, hd1, hd2⟩
      refine ⟨_, h2, ?_⟩
      simp only [List.mem_filter, hsite, matchesOpt, Bool.and_true,
        Bool.and_eq_true, decide_eq_true_eq]
      exact ⟨hmem, hd1, hd2⟩

/-- Witness for C3: a transaction dated inside the range and an order
timestamped inside the epoch range are selected. -/
theorem c3_date_range_inclusion_witness :
    ((⟨1, "x", 20150, 0, 4, 7⟩ : Transaction) ∈
      (⟨[⟨1, "x", 20150, 0, 4, 7⟩], [⟨2, "641", 1741000000, 9⟩], [], []⟩ : DB).transactions ∧
      (20148 : Int) ≤ 20150 ∧ (20150 : Int) ≤ 20152) ∧
    ((⟨2, "641", 1741000000, 9⟩ : BiteOrder) ∈
      (⟨[⟨1, "x", 20150, 0, 4, 7⟩], [⟨2, "641", 1741000000, 9⟩], [], []⟩ : DB).bite_orders ∧
      epochOf 20148 0 ≤ (1741000000 : Int) ∧
      (1741000000 : Int) ≤ epochOf 20152 86399) :=
  ⟨((c3_date_range_inclusion "2025-03-01" "2025-03-05" 20148 20152 none
      ⟨[⟨1, "x", 20150, 0, 4, 7⟩], [⟨2, "641", 1741000000, 9⟩], [], []⟩
      (by decide) (by decide) rfl rfl).1 ⟨1, "x", 20150, 0, 4, 7⟩).mp
      ⟨_, inStoreSelRows_parsed "2025-03-01" "2025-03-05" 20148 20152 none _
        (by decide) (by decide), by decide⟩,
   ((c3_date_range_inclusion "2025-03-01" "2025-03-05" 20148 20152 none
      ⟨[⟨1, "x", 20150, 0, 4, 7⟩], [⟨2, "641", 1741000000, 9⟩], [], []⟩
      (by decide) (by decide) rfl rfl).2 ⟨2, "641", 1741000000, 9⟩).mp
      ⟨_, onlineSelRows_parsed "2025-03-01" "2025-03-05" 20148 20152 none _
        (by decide) (by decide), by decide⟩⟩

/-! ### Claim C9: a reversed range yields the all-zero 200 response. -/

theorem inStoreSelRows_empty_of_reversed (sRaw eRaw : String) (s e : Int)
    (store : Option String) (rows : List Transaction)
    (hs : parseDate sRaw = some s) (he : parseDate eRaw = some e)
    (hlt : e < s) :
    inStoreSelRows (some (sRaw, eRaw)) store rows = .ok [] := by
  rw [inStoreSelRows_parsed sRaw eRaw s e store rows hs he]
  simp only [Except.ok.injEq]
  apply List.filter_eq_nil_iff.mpr
  intro t ht hcon
  simp only [Bool.and_eq_true, decide_eq_true_eq] at hcon
  obtain ⟨⟨hd1, hd2⟩, -⟩ := hcon
  omega

theorem onlineSelRows_empty_of_reversed (sRaw eRaw : String) (s e : Int)
    (store : Option String) (rows : List BiteOrder)
    (hs : parseDate sRaw = some s) (he : parseDate eRaw = some e)
    (hlt : e < s) :
    onlineSelRows (some (sRaw, eRaw)) store rows = .ok [] := by
  rw [onlineSelRows_parsed sRaw eRaw s e store rows hs he]
  simp only [Except.ok.injEq]
  apply List.filter_eq_nil_iff.mpr
  intro o ho hcon
  simp only [Bool.and_eq_true, decide_eq_true_eq, epochOf] at hcon
  obtain ⟨⟨hd1, hd2⟩, -⟩ := hcon
  omega

/-- C9: a `/api/total-revenue` request whose two dates are validly
formatted calendar dates with `endDate` earlier than `startDate` gets
the 200 response `{totalRevenue: 0, inStoreRevenue: 0, onlineRevenue:
0}` (the empty range yields zero through the aggregation default), not
an error. -/
theorem c9_reversed_range_yields_zeros (req : Req) (db : DB) (s e : Int)
    (hv : areDatesValid req = true)
    (hs : parseDate (req.startDate.getD "") = some s)
    (he : parseDate (req.endDate.getD "") = some e)
    (hlt : e < s) :
    (totalRevenueHandler req db).resp = .ok ⟨0, 0, 0⟩ := by
  unfold totalRevenueHandler
  rw [hv]
  simp only [Bool.not_true, Bool.and_false, Bool.false_eq_true, if_false]
  unfold dateFilterOf
  rw [hv]
  simp only [if_true]
  unfold totalRevenueCore
  rw [inStoreSelRows_empty_of_reversed _ _ _ _ _ _ hs he hlt,
      onlineSelRows_empty_of_reversed _ _ _ _ _ _ hs he hlt]
  cases h1 : (orDefault req.source "All" == "All" ||
      orDefault req.source "All" == "In Store") <;>
    cases h2 : (orDefault req.source "All" == "All" ||
        orDefault req.source "All" == "Bite") <;>
      simp [h1, h2, Except.map, sumBy]

/-- Witness for C9: the range 2025-03-10 .. 2025-03-05 over a nonempty
database. -/
theorem c9_reversed_range_yields_zeros_witness :
    (totalRevenueHandler ⟨none, some "2025-03-10", some "2025-03-05", none, none⟩
      ⟨[⟨1, "x", 20155, 0, 4, 7⟩], [⟨2, "641", 1741000000, 9⟩], [], []⟩).resp =
      .ok ⟨0, 0, 0⟩ :=
  c9_reversed_range_yields_zeros
    ⟨none, some "2025-03-10", some "2025-03-05", none, none⟩
    ⟨[⟨1, "x", 20155, 0, 4, 7⟩], [⟨2, "641", 1741000000, 9⟩], [], []⟩
    20157 20152 (by decide) (by decide) (by decide) (by decide)

/-! ### Claim C8: date validation. -/

theorem totalRevenueCore_dfNone_ok (source : String) (store : Option String)
    (db : DB) : ∃ r, (totalRevenueCore source store none db).resp = .ok r := by
  unfold totalRevenueCore inStoreSelRows onlineSelRows
  cases h1 : (source == "All" || source == "In Store") <;>
    cases h2 : (source == "All" || source == "Bite") <;>
      simp [h1, h2, Except.map]

theorem totalOrdersCore_dfNone_ok (source : String) (store : Option String)
    (db : DB) : ∃ r, (totalOrdersCore source store none db).resp = .ok r := by
  unfold totalOrdersCore inStoreSelRows onlineSelRows
  cases h1 : (source == "All" || source == "In Store") <;>
    cases h2 : (source == "All" || source == "Bite") <;>
      simp [h1, h2, Except.map]

/-- C8 (amended): with empty-string parameters treated as absent (the
JS truthiness the handlers apply): for `/api/total-revenue` and
`/api/total-orders` a request supplying exactly one nonempty date, or a
nonempty date value failing the `YYYY-MM-DD` pattern, is rejected with
HTTP 400 before any aggregation runs, while a request supplying no
nonempty date runs with no date filter and succeeds; for
`/api/sales-trend`, `/api/top-products` and `/api/sales-activity`, any
request not supplying both validly formatted dates is rejected with
HTTP 400. -/
theorem c8_date_validation (req : Req) (db : DB) (tzShift : Int → Int)
    (cat : List (String × ProductDetails)) :
    (truthy req.startDate = true → truthy req.endDate = false →
      totalRevenueHandler req db = ⟨.error .badRequest, false, false⟩ ∧
      totalOrdersHandler req db = ⟨.error .badRequest, false, false⟩) ∧
    (truthy req.startDate = false → truthy req.endDate = true →
      totalRevenueHandler req db = ⟨.error .badRequest, false, false⟩ ∧
      totalOrdersHandler req db = ⟨.error .badRequest, false, false⟩) ∧
    (truthy req.startDate = true →
      isDateFormat (req.startDate.getD "") = false →
      totalRevenueHandler req db = ⟨.error .badRequest, false, false⟩ ∧
      totalOrdersHandler req db = ⟨.error .badRequest, false, false⟩) ∧
    (truthy req.endDate = true →
      isDateFormat (req.endDate.getD "") = false →
      totalRevenueHandler req db = ⟨.error .badRequest, false, false⟩ ∧
      totalOrdersHandler req db = ⟨.error .badRequest, false, false⟩) ∧
    (truthy req.startDate = false → truthy req.endDate = false →
      totalRevenueHandler req db =
        totalRevenueCore (orDefault req.source "All") req.store none db ∧
      totalOrdersHandler req db =
        totalOrdersCore (orDefault req.source "All") req.store none db ∧
      (∃ r, (totalRevenueHandler req db).resp = .ok r) ∧
      (∃ r, (totalOrdersHandler req db).resp = .ok r)) ∧
    (areDatesValid req = false →
      salesTrendHandler tzShift req db = .error .badRequest ∧
      topProductsHandler req db cat = .error .badRequest ∧
      salesActivityHandler tzShift req db = .error .badRequest) := by
  refine ⟨?_, ?_, ?_, ?_, ?_, ?_⟩
  · intro h1 h2
    unfold totalRevenueHandler totalOrdersHandler areDatesValid
    rw [h1, h2]
    simp
  · intro h1 h2
    unfold totalRevenueHandler totalOrdersHandler areDatesValid
    rw [h1, h2]
    simp
  · intro h1 h2
    unfold totalRevenueHandler totalOrdersHandler areDatesValid
    rw [h1, h2]
    simp
  · intro h1 h2
    unfold totalRevenueHandler totalOrdersHandler areDatesValid
    rw [h1, h2]
    simp
  · intro h1 h2
    have hv : areDatesValid req = false := by
      unfold areDatesValid
      rw [h1]
      rfl
    have hdf : dateFilterOf req = none := by
      unfold dateFilterOf
      rw [hv]
      rfl
    have hmain : totalRevenueHandler req db =
        totalRevenueCore (orDefault req.source "All") req.store none db := by
      unfold totalRevenueHandler
      rw [h1, h2, hdf]
      rfl
    have hmain2 : totalOrdersHandler req db =
        totalOrdersCore (orDefault req.source "All") req.store none db := by
      unfold totalOrdersHandler
      rw [h1, h2, hdf]
      rfl
    refine ⟨hmain, hmain2, ?_, ?_⟩
    · rw [hmain]
      exact totalRevenueCore_dfNone_ok _ _ _
    · rw [hmain2]
      exact totalOrdersCore_dfNone_ok _ _ _
  · intro hv
    unfold salesTrendHandler topProductsHandler salesActivityHandler
    rw [hv]
    simp

/-- Witness for C8: a lone nonempty start date is rejected by both
scalar endpoints and by the three endpoints that require dates; a
request with no dates runs the unfiltered aggregation. -/
theorem c8_date_validation_witness :
    (totalRevenueHandler ⟨none, some "2025-01-01", none, none, none⟩
      ⟨[], [], [], []⟩ = ⟨.error .badRequest, false, false⟩ ∧
     totalOrdersHandler ⟨none, some "2025-01-01", none, none, none⟩
      ⟨[], [], [], []⟩ = ⟨.error .badRequest, false, false⟩) ∧
    totalRevenueHandler ⟨none, none, none, none, none⟩ ⟨[], [], [], []⟩ =
      totalRevenueCore (orDefault none "All") none none ⟨[], [], [], []⟩ ∧
    salesTrendHandler (fun t => t + 36000)
      ⟨none, some "2025-01-01", none, none, none⟩ ⟨[], [], [], []⟩ =
      .error .badRequest ∧
    topProductsHandler ⟨none, some "2025-01-01", none, none, none⟩
      ⟨[], [], [], []⟩ [] = .error .badRequest ∧
    salesActivityHandler (fun t => t + 36000)
      ⟨none, some "2025-01-01", none, none, none⟩ ⟨[], [], [], []⟩ =
      .error .badRequest :=
  ⟨(c8_date_validation ⟨none, some "2025-01-01", none, none, none⟩
      ⟨[], [], [], []⟩ (fun t => t + 36000) []).1 rfl rfl,
   ((c8_date_validation ⟨none, none, none, none, none⟩
      ⟨[], [], [], []⟩ (fun t => t + 36000) []).2.2.2.2.1 rfl rfl).1,
   ((c8_date_validation ⟨none, some "2025-01-01", none, none, none⟩
      ⟨[], [], [], []⟩ (fun t => t + 36000) []).2.2.2.2.2 rfl).1,
   ((c8_date_validation ⟨none, some "2025-01-01", none, none, none⟩
      ⟨[], [], [], []⟩ (fun t => t + 36000) []).2.2.2.2.2 rfl).2.1,
   ((c8_date_validation ⟨none, some "2025-01-01", none, none, none⟩
      ⟨[], [], [], []⟩ (fun t => t + 36000) []).2.2.2.2.2 rfl).2.2⟩

/-- Counterexample for C8 as stated: the request `?startDate=` (an
empty-string start date, no end date) supplies exactly one of the two
date parameters and its value fails the `YYYY-MM-DD` pattern, yet
`/api/total-revenue` does not reject it: JS truthiness short-circuits
the validation, the unfiltered aggregation runs in both channels, and
the response is a 200. -/
theorem c8_counterexample_empty_start_accepted :
    totalRevenueHandler ⟨none, some "", none, none, none⟩ ⟨[], [], [], []⟩ =
      ⟨.ok ⟨0, 0, 0⟩, true, true⟩ := by decide

/-! ### Claim C4: the trend line covers every day of the range. -/

theorem salesTrendHandler_ok (tzShift : Int → Int) (req : Req) (db : DB)
    (s e : Int) (hv : areDatesValid req = true)
    (hs : parseDate (req.startDate.getD "") = some s)
    (he : parseDate (req.endDate.getD "") = some e) :
    salesTrendHandler tzShift req db =
      .ok ((List.range (e + 1 - s).toNat).map (fun i : Nat =>
        (s + (i : Int),
         instoreDaily (orDefault req.source "All") req.store s e
           (s + (i : Int)) db.transactions +
         onlineDaily tzShift (orDefault req.source "All") req.store s e
           (s + (i : Int)) db.bite_orders))) := by
  unfold salesTrendHandler
  rw [hv]
  simp only [Bool.not_true, Bool.false_eq_true, if_false]
  unfold salesTrendCore
  rw [hs, he]

/-- C4: for a valid range with `start <= end`, `/api/sales-trend`
returns rows whose dates are exactly the calendar days of the inclusive
range, in strictly ascending order (hence exactly one row per day), and
a day on which neither channel has a row inside the range reports
`sales = 0` instead of being omitted. -/
theorem c4_trend_complete_day_series (tzShift : Int → Int) (req : Req) (db : DB)
    (rows : List (Int × Int)) (s e : Int)
    (hs : parseDate (req.startDate.getD "") = some s)
    (he : parseDate (req.endDate.getD "") = some e)
    (hse : s ≤ e)
    (hok : salesTrendHandler tzShift req db = .ok rows) :
    (∀ d : Int, (∃ v, (d, v) ∈ rows) ↔ (s ≤ d ∧ d ≤ e)) ∧
    List.Pairwise (fun p q : Int × Int => p.1 < q.1) rows ∧
    (∀ p ∈ rows,
      (∀ t ∈ db.transactions, t.transaction_date ≠ p.1) →
      (∀ o ∈ db.bite_orders, onlineLocalDate tzShift o.ready_at_time ≠ p.1) →
      p.2 = 0) := by
  cases hv : areDatesValid req with
  | false =>
    exfalso
    unfold salesTrendHandler at hok
    rw [hv] at hok
    simp at hok
  | true =>
    rw [salesTrendHandler_ok tzShift req db s e hv hs he] at hok
    simp only [Except.ok.injEq] at hok
    subst hok
    refine ⟨?_, ?_, ?_⟩
    · intro d
      constructor
      · rintro ⟨v, hv2⟩
        obtain ⟨i, hi, hfi⟩ := List.mem_map.mp hv2
        have hi2 : i < (e + 1 - s).toNat := List.mem_range.mp hi
        have hd : s + (i : Int) = d := by
          have := congrArg Prod.fst hfi
          simpa using this
        constructor <;> omega
      · rintro ⟨hd1, hd2⟩
        refine ⟨instoreDaily (orDefault req.source "All") req.store s e d
            db.transactions +
          onlineDaily tzShift (orDefault req.source "All") req.store s e d
            db.bite_orders, ?_⟩
        apply List.mem_map.mpr
        refine ⟨(d - s).toNat, List.mem_range.mpr (by omega), ?_⟩
        have hds : s + ((d - s).toNat : Int) = d := by omega
        rw [hds]
    · apply List.pairwise_map.mpr
      refine (List.pairwise_lt_range _).imp ?_
      intro i j hij
      show s + (i : Int) < s + (j : Int)
      omega
    · intro p hp h1 h2
      obtain ⟨i, hi, hfi⟩ := List.mem_map.mp hp
      subst hfi
      show instoreDaily (orDefault req.source "All") req.store s e
          (s + (i : Int)) db.transactions +
        onlineDaily tzShift (orDefault req.source "All") req.store s e
          (s + (i : Int)) db.bite_orders = 0
      have e1 : instoreDaily (orDefault req.source "All") req.store s e
          (s + (i : Int)) db.transactions = 0 := by
        apply sumBy_filter_false
        intro t ht
        have hne : t.transaction_date ≠ s + (i : Int) := h1 t ht
        simp [hne]
      have e2 : onlineDaily tzShift (orDefault req.source "All") req.store s e
          (s + (i : Int)) db.bite_orders = 0 := by
        apply sumBy_filter_false
        intro o ho
        have hne : onlineLocalDate tzShift o.ready_at_time ≠ s + (i : Int) :=
          h2 o ho
        simp [hne]
      rw [e1, e2]
      simp

/-- Witness for C4: the five-day range 2025-03-01 .. 2025-03-05 over an
empty database; day 20150 (2025-03-03) appears and carries zero
sales. -/
theorem c4_trend_complete_day_series_witness :
    ((20148 : Int) ≤ 20150 ∧ (20150 : Int) ≤ 20152) ∧
    ((20150 : Int), (0 : Int)).2 = 0 :=
  ⟨((c4_trend_complete_day_series (fun t => t + 36000)
      ⟨none, some "2025-03-01", some "2025-03-05", none, none⟩
      ⟨[], [], [], []⟩
      [(20148, 0), (20149, 0), (20150, 0), (20151, 0), (20152, 0)]
      20148 20152 (by decide) (by decide) (by decide) (by decide)).1
      20150).mp ⟨0, by decide⟩,
   (c4_trend_complete_day_series (fun t => t + 36000)
      ⟨none, some "2025-03-01", some "2025-03-05", none, none⟩
      ⟨[], [], [], []⟩
      [(20148, 0), (20149, 0), (20150, 0), (20151, 0), (20152, 0)]
      20148 20152 (by decide) (by decide) (by decide) (by decide)).2.2
      (20150, 0) (by decide)
      (fun t ht => absurd ht (List.not_mem_nil t))
      (fun o ho => absurd ho (List.not_mem_nil o))⟩

/-! ### Claim C5: sort and truncation of the combined product rows. -/

theorem jsSlice_some {α : Type} (l : List α) (i : Int) :
    jsSlice l (some i) =
      if i < 0 then l.take (l.length - i.natAbs) else l.take i.toNat := rfl

theorem topProductsHandler_ok (req : Req) (db : DB)
    (cat : List (String × ProductDetails)) (s e : Int)
    (hv : areDatesValid req = true)
    (hs : parseDate (req.startDate.getD "") = some s)
    (he : parseDate (req.endDate.getD "") = some e) :
    topProductsHandler req db cat =
      .ok ((jsSlice (sortByRevDesc
          (combinedAggs (orDefault req.source "All") req.store s e db))
          (limitOf req)).map (enrichProduct cat)) := by
  unfold topProductsHandler
  rw [hv]
  simp only [Bool.not_true, Bool.false_eq_true, if_false]
  rw [hs, he]

/-- C5 (amended): the `/api/top-products` rows are produced by sorting
the union of both channels' per-product aggregates by revenue in
non-increasing order (descending; rows of equal revenue are allowed and
keep their stable union order) and truncating to the requested limit
(default 40): the output is non-increasing in `revenue`, has
`min limit total` rows, and no dropped row has revenue above any
retained row. -/
theorem c5_top_products_sorted_and_truncated (req : Req) (db : DB)
    (cat : List (String × ProductDetails)) (rows : List ProductOut)
    (s e n : Int)
    (hs : parseDate (req.startDate.getD "") = some s)
    (he : parseDate (req.endDate.getD "") = some e)
    (hlim : limitOf req = some n) (hn : 0 ≤ n)
    (hok : topProductsHandler req db cat = .ok rows) :
    List.Pairwise (fun a b : ProductOut => b.revenue ≤ a.revenue) rows ∧
    rows.length = min n.toNat
      (combinedAggs (orDefault req.source "All") req.store s e db).length ∧
    ∀ r ∈ rows,
      ∀ q ∈ (sortByRevDesc
          (combinedAggs (orDefault req.source "All") req.store s e db)).drop
          n.toNat,
        q.total_revenue ≤ r.revenue := by
  cases hv : areDatesValid req with
  | false =>
    exfalso
    unfold topProductsHandler at hok
    rw [hv] at hok
    simp at hok
  | true =>
    rw [topProductsHandler_ok req db cat s e hv hs he] at hok
    simp only [Except.ok.injEq] at hok
    subst hok
    rw [hlim]
    have hslice : jsSlice (sortByRevDesc
        (combinedAggs (orDefault req.source "All") req.store s e db)) (some n) =
        (sortByRevDesc
          (combinedAggs (orDefault req.source "All") req.store s e db)).take
          n.toNat := by
      rw [jsSlice_some]
      rw [if_neg (by omega : ¬ n < 0)]
    rw [hslice]
    refine ⟨?_, ?_, ?_⟩
    · apply List.pairwise_map.mpr
      have hpw := List.Pairwise.sublist (List.take_sublist n.toNat _)
        (pairwise_sortByRevDesc
          (combinedAggs (orDefault req.source "All") req.store s e db))
      exact hpw.imp (fun h => by
        rw [enrichProduct_revenue, enrichProduct_revenue]
        exact h)
    · rw [List.length_map, List.length_take, length_sortByRevDesc]
    · intro r hr q hq
      obtain ⟨a, ha, hra⟩ := List.mem_map.mp hr
      subst hra
      rw [enrichProduct_revenue]
      have hfull : List.Pairwise
          (fun a b : RawProduct => b.total_revenue ≤ a.total_revenue)
          ((sortByRevDesc
            (combinedAggs (orDefault req.source "All") req.store s e db)).take
            n.toNat ++
          (sortByRevDesc
            (combinedAggs (orDefault req.source "All") req.store s e db)).drop
            n.toNat) := by
        rw [List.take_append_drop]
        exact pairwise_sortByRevDesc _
      exact (List.pairwise_append.mp hfull).2.2 a ha q hq

/-- Witness for C5: two in-store products tied at revenue 5 are both
returned (limit defaulting to 40), in non-increasing revenue order. -/
theorem c5_top_products_sorted_and_truncated_witness :
    List.Pairwise (fun a b : ProductOut => b.revenue ≤ a.revenue)
      [⟨some "Unknown Product [1]", "In-Store", 5, none, none, 1⟩,
       ⟨some "Unknown Product [2]", "In-Store", 5, none, none, 1⟩] ∧
    ([⟨some "Unknown Product [1]", "In-Store", 5, none, none, 1⟩,
      ⟨some "Unknown Product [2]", "In-Store", 5, none, none, 1⟩] :
      List ProductOut).length = min (40 : Int).toNat
      (combinedAggs (orDefault none "All") none 20089 20090
        ⟨[⟨1, "x", 20089, 0, 4, 10⟩], [], [⟨1, 1, 1, 5⟩, ⟨1, 2, 1, 5⟩],
         []⟩).length :=
  ⟨(c5_top_products_sorted_and_truncated
      ⟨none, some "2025-01-01", some "2025-01-02", none, none⟩
      ⟨[⟨1, "x", 20089, 0, 4, 10⟩], [], [⟨1, 1, 1, 5⟩, ⟨1, 2, 1, 5⟩], []⟩ []
      [⟨some "Unknown Product [1]", "In-Store", 5, none, none, 1⟩,
       ⟨some "Unknown Product [2]", "In-Store", 5, none, none, 1⟩]
      20089 20090 40 (by decide) (by decide) rfl (by decide) (by decide)).1,
   (c5_top_products_sorted_and_truncated
      ⟨none, some "2025-01-01", some "2025-01-02", none, none⟩
      ⟨[⟨1, "x", 20089, 0, 4, 10⟩], [], [⟨1, 1, 1, 5⟩, ⟨1, 2, 1, 5⟩], []⟩ []
      [⟨some "Unknown Product [1]", "In-Store", 5, none, none, 1⟩,
       ⟨some "Unknown Product [2]", "In-Store", 5, none, none, 1⟩]
      20089 20090 40 (by decide) (by decide) rfl (by decide) (by decide)).2.1⟩

/-- Counterexample for C5 as stated: two products with equal revenue 5
produce a response that is NOT strictly descending in revenue — the
order is only non-increasing, so "strictly descending" fails on
ties. -/
theorem c5_counterexample_revenue_tie :
    topProductsHandler ⟨none, some "2025-01-01", some "2025-01-02", none, none⟩
      ⟨[⟨1, "x", 20089, 0, 4, 10⟩], [], [⟨1, 1, 1, 5⟩, ⟨1, 2, 1, 5⟩], []⟩ [] =
      .ok [⟨some "Unknown Product [1]", "In-Store", 5, none, none, 1⟩,
           ⟨some "Unknown Product [2]", "In-Store", 5, none, none, 1⟩] ∧
    ¬ List.Pairwise (fun a b : ProductOut => a.revenue > b.revenue)
      [⟨some "Unknown Product [1]", "In-Store", 5, none, none, 1⟩,
       ⟨some "Unknown Product [2]", "In-Store", 5, none, none, 1⟩] := by
  constructor
  · decide
  · intro h
    have := (List.pairwise_cons.mp h).1
      ⟨some "Unknown Product [2]", "In-Store", 5, none, none, 1⟩ (by simp)
    simp at this

/-! ### Claim C6: zero-quantity line items are excluded. -/

theorem instorePairs_append_zero_quantity (source : String)
    (store : Option String) (s e : Int) (items : List TransactionItem)
    (trans : List Transaction) (ti : TransactionItem) (hti : ti.quantity = 0) :
    instorePairs source store s e (items ++ [ti]) trans =
      instorePairs source store s e items trans := by
  unfold instorePairs
  rw [List.flatMap_append, List.filter_append]
  have h0 : (([ti].flatMap (fun ti2 =>
      (trans.filter (fun t =>
        decide (ti2.transaction_id = t.id) &&
        tpInstoreCond source store s e t)).map (fun t => (ti2, t)))).filter
      (fun p => decide (p.1.quantity > 0))) = [] := by
    apply List.filter_eq_nil_iff.mpr
    intro p hp
    simp only [List.flatMap_cons, List.flatMap_nil, List.append_nil,
      List.mem_map] at hp
    obtain ⟨t, ht, hpt⟩ := hp
    subst hpt
    simp [hti]
  rw [h0, List.append_nil]

theorem onlinePairs_append_zero_quantity (source : String)
    (store : Option String) (s e : Int) (oitems : List BiteOrderItem)
    (orders : List BiteOrder) (bi : BiteOrderItem) (hbi : bi.quantity = 0) :
    onlinePairs source store s e (oitems ++ [bi]) orders =
      onlinePairs source store s e oitems orders := by
  unfold onlinePairs
  rw [List.flatMap_append, List.filter_append]
  have h0 : (([bi].flatMap (fun bi2 =>
      (orders.filter (fun o =>
        decide (bi2.order_id = o.order_id) &&
        tpOnlineCond source store s e o)).map (fun o => (bi2, o)))).filter
      (fun p => decide (p.1.quantity > 0) && !(p.1.name == ""))) = [] := by
    apply List.filter_eq_nil_iff.mpr
    intro p hp
    simp only [List.flatMap_cons, List.flatMap_nil, List.append_nil,
      List.mem_map] at hp
    obtain ⟨o, ho, hpo⟩ := hp
    subst hpo
    simp [hbi]
  rw [h0, List.append_nil]

theorem instoreAgg_append_zero_quantity (source : String)
    (store : Option String) (s e : Int) (items : List TransactionItem)
    (trans : List Transaction) (ti : TransactionItem) (hti : ti.quantity = 0) :
    instoreAgg source store s e (items ++ [ti]) trans =
      instoreAgg source store s e items trans := by
  unfold instoreAgg
  rw [instorePairs_append_zero_quantity source store s e items trans ti hti]

theorem onlineAgg_append_zero_quantity (source : String)
    (store : Option String) (s e : Int) (oitems : List BiteOrderItem)
    (orders : List BiteOrder) (bi : BiteOrderItem) (hbi : bi.quantity = 0) :
    onlineAgg source store s e (oitems ++ [bi]) orders =
      onlineAgg source store s e oitems orders := by
  unfold onlineAgg
  rw [onlinePairs_append_zero_quantity source store s e oitems orders bi hbi]

/-- C6 (amended): `/api/top-products` excludes line items with
`quantity = 0` in both channels — appending such an item to either item
table leaves the response unchanged. (The in-store filter is on
`quantity`, not on `unit_price`: a zero-priced item with positive
quantity still counts, see the counterexample.) -/
theorem c6_zero_quantity_items_excluded (req : Req)
    (trans : List Transaction) (orders : List BiteOrder)
    (items : List TransactionItem) (oitems : List BiteOrderItem)
    (cat : List (String × ProductDetails))
    (ti : TransactionItem) (bi : BiteOrderItem)
    (hti : ti.quantity = 0) (hbi : bi.quantity = 0) :
    topProductsHandler req ⟨trans, orders, items ++ [ti], oitems⟩ cat =
      topProductsHandler req ⟨trans, orders, items, oitems⟩ cat ∧
    topProductsHandler req ⟨trans, orders, items, oitems ++ [bi]⟩ cat =
      topProductsHandler req ⟨trans, orders, items, oitems⟩ cat := by
  have hA : ∀ source store s e,
      combinedAggs source store s e ⟨trans, orders, items ++ [ti], oitems⟩ =
      combinedAggs source store s e ⟨trans, orders, items, oitems⟩ := by
    intro source store s e
    show instoreAgg source store s e (items ++ [ti]) trans ++
        onlineAgg source store s e oitems orders =
      instoreAgg source store s e items trans ++
        onlineAgg source store s e oitems orders
    rw [instoreAgg_append_zero_quantity source store s e items trans ti hti]
  have hB : ∀ source store s e,
      combinedAggs source store s e ⟨trans, orders, items, oitems ++ [bi]⟩ =
      combinedAggs source store s e ⟨trans, orders, items, oitems⟩ := by
    intro source store s e
    show instoreAgg source store s e items trans ++
        onlineAgg source store s e (oitems ++ [bi]) orders =
      instoreAgg source store s e items trans ++
        onlineAgg source store s e oitems orders
    rw [onlineAgg_append_zero_quantity source store s e oitems orders bi hbi]
  constructor
  · unfold topProductsHandler
    split
    · rfl
    · rcases hps : parseDate (req.startDate.getD "") with _ | s
      · simp [hps]
      · rcases hpe : parseDate (req.endDate.getD "") with _ | e
        · simp [hps, hpe]
        · simp only [hps, hpe]
          rw [hA]
  · unfold topProductsHandler
    split
    · rfl
    · rcases hps : parseDate (req.startDate.getD "") with _ | s
      · simp [hps]
      · rcases hpe : parseDate (req.endDate.getD "") with _ | e
        · simp [hps, hpe]
        · simp only [hps, hpe]
          rw [hB]

/-- Witness for C6: appending a zero-quantity item to either channel's
item table does not change the top-products response. -/
theorem c6_zero_quantity_items_excluded_witness :
    topProductsHandler ⟨none, some "2025-01-01", some "2025-01-02", none, none⟩
      ⟨[⟨1, "x", 20089, 0, 4, 10⟩], [⟨5, "641", 1735700000, 12⟩],
       [⟨1, 1, 2, 3⟩] ++ [⟨1, 9, 0, 4⟩], [⟨5, "Pizza", 1, 12⟩]⟩ [] =
    topProductsHandler ⟨none, some "2025-01-01", some "2025-01-02", none, none⟩
      ⟨[⟨1, "x", 20089, 0, 4, 10⟩], [⟨5, "641", 1735700000, 12⟩],
       [⟨1, 1, 2, 3⟩], [⟨5, "Pizza", 1, 12⟩]⟩ [] ∧
    topProductsHandler ⟨none, some "2025-01-01", some "2025-01-02", none, none⟩
      ⟨[⟨1, "x", 20089, 0, 4, 10⟩], [⟨5, "641", 1735700000, 12⟩],
       [⟨1, 1, 2, 3⟩], [⟨5, "Pizza", 1, 12⟩] ++ [⟨5, "Coke", 0, 3⟩]⟩ [] =
    topProductsHandler ⟨none, some "2025-01-01", some "2025-01-02", none, none⟩
      ⟨[⟨1, "x", 20089, 0, 4, 10⟩], [⟨5, "641", 1735700000, 12⟩],
       [⟨1, 1, 2, 3⟩], [⟨5, "Pizza", 1, 12⟩]⟩ [] :=
  c6_zero_quantity_items_excluded
    ⟨none, some "2025-01-01", some "2025-01-02", none, none⟩
    [⟨1, "x", 20089, 0, 4, 10⟩] [⟨5, "641", 1735700000, 12⟩]
    [⟨1, 1, 2, 3⟩] [⟨5, "Pizza", 1, 12⟩] []
    ⟨1, 9, 0, 4⟩ ⟨5, "Coke", 0, 3⟩ rfl rfl

/-- Counterexample for C6 as stated: an in-store item with
`unit_price = 0` but `quantity = 2` is NOT excluded — it produces a
result row with quantity 2 (and revenue 0), because the in-store filter
is `quantity > 0`, not `unit_price <> 0`. -/
theorem c6_counterexample_zero_unit_price_counted :
    topProductsHandler ⟨none, some "2025-01-01", some "2025-01-02", none, none⟩
      ⟨[⟨1, "x", 20089, 0, 4, 10⟩], [], [⟨1, 7, 2, 0⟩], []⟩ [] =
      .ok [⟨some "Unknown Product [7]", "In-Store", 0, none, none, 2⟩] := by
  decide

/-! ### Claim C7: missing catalog entries degrade to a placeholder. -/

/-- C7: an in-store product whose id is missing from the catalog is
returned with the literal placeholder name `Unknown Product [<id>]` and
null prices; an online row uses its identifier as the name with null
prices; and the success of a `/api/top-products` request never depends
on the catalog contents. -/
theorem c7_missing_catalog_placeholder :
    (∀ (cat : List (String × ProductDetails)) (p : RawProduct),
      p.source_type = "In-Store" →
      lookupCatalog cat p.product_identifier = none →
      enrichProduct cat p =
        ⟨some ("Unknown Product [" ++ p.product_identifier ++ "]"),
         p.source_type, p.total_revenue, none, none, p.total_quantity⟩) ∧
    (∀ (cat : List (String × ProductDetails)) (p : RawProduct),
      p.source_type = "Online" →
      enrichProduct cat p =
        ⟨some p.product_identifier, p.source_type, p.total_revenue, none, none,
         p.total_quantity⟩) ∧
    (∀ (req : Req) (db : DB) (cat cat2 : List (String × ProductDetails)),
      (topProductsHandler req db cat).isOk =
      (topProductsHandler req db cat2).isOk) := by
  refine ⟨?_, ?_, ?_⟩
  · intro cat p h1 h2
    unfold enrichProduct
    rw [h1, h2]
    simp
  · intro cat p h1
    unfold enrichProduct
    rw [h1]
    simp
  · intro req2 db2 cat cat2
    unfold topProductsHandler
    split
    · rfl
    · rcases hps : parseDate (req2.startDate.getD "") with _ | s
      · simp [hps]
      · rcases hpe : parseDate (req2.endDate.getD "") with _ | e
        · simp [hps, hpe]
        · simp [hps, hpe, Except.isOk, Except.toBool]

/-- Witness for C7: a missing id resolves to the placeholder; an online
row keeps its name; adding a catalog entry does not change success. -/
theorem c7_missing_catalog_placeholder_witness :
    enrichProduct [] ⟨"7", "In-Store", 1, 5⟩ =
      ⟨some ("Unknown Product [" ++ "7" ++ "]"), "In-Store", 5, none, none, 1⟩ ∧
    enrichProduct [] ⟨"Garlic Bread", "Online", 2, 9⟩ =
      ⟨some "Garlic Bread", "Online", 9, none, none, 2⟩ ∧
    (topProductsHandler ⟨none, some "2025-01-01", some "2025-01-02", none, none⟩
      ⟨[⟨1, "x", 20089, 0, 4, 10⟩], [], [⟨1, 7, 2, 3⟩], []⟩ []).isOk =
    (topProductsHandler ⟨none, some "2025-01-01", some "2025-01-02", none, none⟩
      ⟨[⟨1, "x", 20089, 0, 4, 10⟩], [], [⟨1, 7, 2, 3⟩], []⟩
      [("7", ⟨"Garlic Bread", 7, 3⟩)]).isOk :=
  ⟨c7_missing_catalog_placeholder.1 [] ⟨"7", "In-Store", 1, 5⟩ rfl rfl,
   c7_missing_catalog_placeholder.2.1 [] ⟨"Garlic Bread", "Online", 2, 9⟩ rfl,
   c7_missing_catalog_placeholder.2.2
     ⟨none, some "2025-01-01", some "2025-01-02", none, none⟩
     ⟨[⟨1, "x", 20089, 0, 4, 10⟩], [], [⟨1, 7, 2, 3⟩], []⟩ []
     [("7", ⟨"Garlic Bread", 7, 3⟩)]⟩

/-! ### Claim C10: a non-numeric limit yields an empty 200 response. -/

/-- C10: a valid `/api/top-products` request whose `limit` parameter
does not parse as an integer (`parseInt` gives `NaN`) gets the 200
response `[]`: `slice(0, NaN)` truncates everything, so neither an
error nor the default of 40 applies. -/
theorem c10_nan_limit_yields_empty (req : Req) (db : DB)
    (cat : List (String × ProductDetails)) (ls : String) (s e : Int)
    (hv : areDatesValid req = true)
    (hs : parseDate (req.startDate.getD "") = some s)
    (he : parseDate (req.endDate.getD "") = some e)
    (hlim : req.limit = some ls)
    (hparse : parseIntJS ls = none) :
    topProductsHandler req db cat = .ok [] := by
  rw [topProductsHandler_ok req db cat s e hv hs he]
  have hnone : limitOf req = none := by
    unfold limitOf
    rw [hlim]
    exact hparse
  rw [hnone]
  rfl

/-- Witness for C10: `limit=abc` over a database with sales data still
returns the empty list. -/
theorem c10_nan_limit_yields_empty_witness :
    topProductsHandler ⟨none, some "2025-01-01", some "2025-01-02", none,
      some "abc"⟩
      ⟨[⟨1, "x", 20089, 0, 4, 10⟩], [], [⟨1, 1, 1, 5⟩, ⟨1, 2, 1, 5⟩], []⟩ [] =
      .ok [] :=
  c10_nan_limit_yields_empty
    ⟨none, some "2025-01-01", some "2025-01-02", none, some "abc"⟩
    ⟨[⟨1, "x", 20089, 0, 4, 10⟩], [], [⟨1, 1, 1, 5⟩, ⟨1, 2, 1, 5⟩], []⟩ []
    "abc" 20089 20090 (by decide) (by decide) (by decide) rfl (by decide)
